import Mathlib

/-!
Verification of the minimum-context retrieval and refusal-decision pipeline
of the Chat-Bot repository (backend/src/rag).  The Python modules
`min_text_retriever.py`, `refusal_handler.py` and
`hallucination_prevention.py` are shallowly embedded below as executable
Lean functions.  Python strings are modelled through their character
lists; Python `float` arithmetic is modelled with rationals; the Postgres
full-text search is an explicit parameter (the ranked list of chunks the
provider would return), together with a boolean recording whether the
search was actually issued.
-/

/-- ASCII whitespace, as recognised by Python `str.split()` / `str.strip()`
on the ASCII inputs considered here. -/
def isPyWs (c : Char) : Bool :=
  c = ' ' || c = '\t' || c = '\n' || c = '\r' || c = '\x0b' || c = '\x0c'

/-- Terminal sentence punctuation, the class `[.!?]` of
`re.split(r'[.!?]+', text)` in `_find_relevant_sentences`. -/
def isTerminalPunct (c : Char) : Bool :=
  c = '.' || c = '!' || c = '?'

/-- Maximal runs of characters not satisfying `p`, accumulator form.
Runs are returned in order; delimiter runs produce no empty fragments. -/
def fragAux (p : Char → Bool) (acc : List Char) : List Char → List (List Char)
  | [] => if acc = [] then [] else [acc.reverse]
  | c :: cs =>
    if p c then
      if acc = [] then fragAux p [] cs
      else acc.reverse :: fragAux p [] cs
    else
      fragAux p (c :: acc) cs

/-- Maximal runs of characters not satisfying `p`.  With `p := isPyWs`
this is Python `str.split()` (empties discarded); with
`p := isTerminalPunct` it is `re.split(r'[.!?]+', text)` after the
empty fragments are filtered away. -/
def fragments (p : Char → Bool) (l : List Char) : List (List Char) :=
  fragAux p [] l

/-- Python `str.split(sep)` for a one-character separator: split at every
occurrence, keeping empty pieces (`"".split('.') == ['']`). -/
def splitKeepAux (p : Char → Bool) (acc : List Char) : List Char → List (List Char)
  | [] => [acc.reverse]
  | c :: cs =>
    if p c then acc.reverse :: splitKeepAux p [] cs
    else splitKeepAux p (c :: acc) cs

/-- Split on a predicate keeping empty pieces (Python `str.split('.')`). -/
def splitKeep (p : Char → Bool) (l : List Char) : List (List Char) :=
  splitKeepAux p [] l

/-- Python `str.strip()` on a character list: drop whitespace from both ends. -/
def trimChars (l : List Char) : List Char :=
  ((l.dropWhile isPyWs).reverse.dropWhile isPyWs).reverse

/-- `charsLead n h` holds when `n` is an initial segment of `h`. -/
def charsLead : List Char → List Char → Bool
  | [], _ => true
  | _ :: _, [] => false
  | a :: as, b :: bs => a = b && charsLead as bs

/-- `charsWithin n h` holds when `n` occurs contiguously inside `h`:
Python `n in h` for strings (and `re.search` for the purely literal
patterns used by the hallucination checker). -/
def charsWithin (needle : List Char) : List Char → Bool
  | [] => needle.isEmpty
  | b :: bs => charsLead needle (b :: bs) || charsWithin needle bs

/-- Python `str.lower()` (character-wise case folding). -/
def pyLowerStr (s : String) : String :=
  String.mk (s.data.map Char.toLower)

/-- Python `str.strip()`. -/
def pyStrip (s : String) : String :=
  String.mk (trimChars s.data)

/-- Python `str.split()` with no argument: whitespace runs as delimiters,
no empty words. -/
def pyWords (s : String) : List String :=
  (fragments isPyWs s.data).map String.mk

/-- Python `set(s.lower().split())`, the word set used by the refusal
handler and the hallucination checker. -/
def pyWordSet (s : String) : Finset String :=
  (pyWords (pyLowerStr s)).toFinset

/-- Python `needle in hay` for strings. -/
def strContainsSub (hay needle : String) : Bool :=
  charsWithin needle.data hay.data

/-- Python `s.split(c)` for a single-character separator. -/
def splitKeepStr (s : String) (c : Char) : List String :=
  (splitKeep (fun d => d = c) s.data).map String.mk

/-- `MinimumTextRetriever._calculate_token_count`: `len(text.split())`,
the simple whitespace word count used as the token approximation. -/
def calculateTokenCount (s : String) : Nat :=
  (pyWords s).length

/-- Stable insertion of a scored sentence into a score-descending list:
the new element goes after strictly greater scores and before equal ones,
which together with `sortDesc` reproduces Python's stable
`list.sort(key=..., reverse=True)`. -/
def insertDesc (p : String × Nat) : List (String × Nat) → List (String × Nat)
  | [] => [p]
  | q :: qs => if p.2 < q.2 then q :: insertDesc p qs else p :: q :: qs

/-- Stable sort, descending by score: Python
`scored_sentences.sort(key=lambda x: x[1], reverse=True)`. -/
def sortDesc : List (String × Nat) → List (String × Nat)
  | [] => []
  | x :: xs => insertDesc x (sortDesc xs)

/-- The `(sentence, score)` list built by
`MinimumTextRetriever._find_relevant_sentences`: sentences are the
non-empty stripped fragments between terminal punctuation, the score of a
sentence counts the query terms (duplicates included) occurring as
substrings of the lowercased sentence. -/
def scoredSentences (text query : String) : List (String × Nat) :=
  let sentences :=
    (((fragments isTerminalPunct text.data).map trimChars).filter
      (fun l => l ≠ [])).map String.mk
  let queryTerms := pyWords (pyLowerStr query)
  sentences.map (fun s =>
    (s, (queryTerms.filter (fun t => strContainsSub (pyLowerStr s) t)).length))

/-- The surviving sentences of `_find_relevant_sentences`:
`[s[0] for s in scored_sentences[:max_sentences] if s[1] > 0]` after the
stable descending sort. -/
def topSentences (text query : String) (maxSentences : Nat) : List String :=
  ((sortDesc (scoredSentences text query)).take maxSentences).filterMap
    (fun p => if 0 < p.2 then some p.1 else none)

/-- `MinimumTextRetriever._find_relevant_sentences`:
`'. '.join(top_sentences) + '.'`. -/
def findRelevantSentences (text query : String) (maxSentences : Nat) : String :=
  String.intercalate ". " (topSentences text query maxSentences) ++ "."

example : findRelevantSentences "Hello world" "zebra" 3 = "." := by decide

example : findRelevantSentences "ROS is great. Cats sleep." "ros" 3 = "ROS is great." := by
  decide

/-- A row of the `book_chunks` table as consumed by the retriever
(`chunk_id`, `token_count` and `rank` are fetched but never read by the
assembly logic, so they are omitted). -/
structure Chunk where
  chapter : String
  «section» : String
  title : String
  content : String

/-- The result dictionary of `retrieve_minimum_context`. -/
structure RetrievalResult where
  context : String
  sources : List String
  token_count : Nat
  selected_text_used : Bool
  query : String
  is_sufficient : Bool
deriving DecidableEq

/-- The chunk-processing loop of `retrieve_minimum_context` (lines
109-134): walk the ranked search results; stop once the remaining budget
is `≤ 0`; skip a chunk whose scored excerpt strips to the empty string;
otherwise, when the excerpt fits the remaining budget, append it to the
context (separated by a blank line), charge its token count, and record
the `chapter/section - title` source label if unseen. -/
def processChunks (query : String) (ctx : String) (srcs : List String)
    (tc : Nat) (remaining : Int) : List Chunk → String × List String × Nat
  | [] => (ctx, srcs, tc)
  | c :: rest =>
    if remaining ≤ 0 then (ctx, srcs, tc)
    else
      let excerpt := findRelevantSentences c.content query 3
      if pyStrip excerpt = "" then processChunks query ctx srcs tc remaining rest
      else
        let etc := calculateTokenCount excerpt
        if (etc : Int) ≤ remaining then
          let ctx' := if ctx ≠ "" then ctx ++ "\n\n" ++ excerpt else excerpt
          let src := c.chapter ++ "/" ++ c.«section» ++ " - " ++ c.title
          let srcs' := if src ∈ srcs then srcs else srcs ++ [src]
          processChunks query ctx' srcs' (tc + etc) (remaining - etc) rest
        else processChunks query ctx srcs tc remaining rest

/-- `MinimumTextRetriever.retrieve_minimum_context`.  The Postgres
full-text search is modelled by the `searchResults` parameter — the
ranked chunk list the provider would return — and the second component
of the result records whether the search was actually issued (the query
happens inside the `if result['token_count'] < max_tokens` block).
Python treats both `None` and `""` as a missing selection
(`if selected_text:`), which the `Option.getD` collapse reproduces. -/
def retrieve_minimum_context (searchResults : List Chunk) (query : String)
    (selectedText : Option String) (maxTokens minTokens : Int) :
    RetrievalResult × Bool :=
  let sel := selectedText.getD ""
  if sel = "" then
    if (0 : Int) < maxTokens then
      let p := processChunks query "" [] 0 maxTokens searchResults
      ({ context := p.1, sources := p.2.1, token_count := p.2.2,
         selected_text_used := false, query := query,
         is_sufficient := decide (minTokens ≤ (p.2.2 : Int)) }, true)
    else
      ({ context := "", sources := [], token_count := 0,
         selected_text_used := false, query := query,
         is_sufficient := false }, false)
  else
    let tc := calculateTokenCount sel
    let suff := decide (minTokens ≤ (tc : Int))
    let r : RetrievalResult :=
      { context := sel, sources := ["User Selected Text"], token_count := tc,
        selected_text_used := true, query := query, is_sufficient := suff }
    if (tc : Int) ≤ maxTokens ∧ suff = true then (r, false)
    else if (tc : Int) < maxTokens then
      let p := processChunks query sel ["User Selected Text"] tc
        (maxTokens - (tc : Int)) searchResults
      ({ context := p.1, sources := p.2.1, token_count := p.2.2,
         selected_text_used := true, query := query,
         is_sufficient := decide (minTokens ≤ (p.2.2 : Int)) }, true)
    else (r, false)

/-- The `RefusalType` enumeration of `refusal_handler.py`. -/
inductive RefusalType
  | INSUFFICIENT_CONTEXT
  | NO_RELEVANT_CONTENT
  | SELECTED_TEXT_ONLY_INSUFFICIENT
  | CONTEXT_TOO_BRIEF
  | NO_CONTEXT_PROVIDED
  | HALLUCINATION_PREVENTION
deriving DecidableEq

/-- The `.value` string of each `RefusalType` member. -/
def refusalValue : RefusalType → String
  | .INSUFFICIENT_CONTEXT => "insufficient_context"
  | .NO_RELEVANT_CONTENT => "no_relevant_content"
  | .SELECTED_TEXT_ONLY_INSUFFICIENT => "selected_text_only_insufficient"
  | .CONTEXT_TOO_BRIEF => "context_too_brief"
  | .NO_CONTEXT_PROVIDED => "no_context_provided"
  | .HALLUCINATION_PREVENTION => "hallucination_prevention"

/-- The `RefusalHandler.refusal_messages` table, transcribed verbatim. -/
def refusalMessage : RefusalType → String
  | .INSUFFICIENT_CONTEXT =>
      "I cannot answer this question based on the provided book content. " ++
      "The retrieved information does not contain sufficient details to provide an accurate response. " ++
      "Please refer to the relevant sections of the book for the information you need."
  | .NO_RELEVANT_CONTENT =>
      "I cannot answer this question based on the provided book content. " ++
      "The retrieved information does not appear to contain relevant information for your query. " ++
      "Please check the book sections that might contain this information."
  | .SELECTED_TEXT_ONLY_INSUFFICIENT =>
      "I cannot answer this question based only on the selected text. " ++
      "The selected portion does not contain sufficient information to address your query. " ++
      "Please select a broader text segment or refer to other relevant sections of the book."
  | .CONTEXT_TOO_BRIEF =>
      "I cannot provide an accurate answer based on the provided context, as it is too brief to contain the necessary information. " ++
      "Please provide more context from the book or refer to the relevant sections directly."
  | .NO_CONTEXT_PROVIDED =>
      "I cannot answer this question without context from the book. " ++
      "No relevant book content was provided to answer your query. " ++
      "Please ensure you have selected text or that the book content is properly indexed."
  | .HALLUCINATION_PREVENTION =>
      "I cannot answer this question as it requires information not available in the provided book content. " ++
      "I am designed to answer only from the specific book content provided. " ++
      "Please consult the book directly for this information."

/-- `RefusalHandler.get_refusal_message`: the catalog message, with an
optional custom-context suffix (Python truthiness: a `None` or empty
suffix is not appended). -/
def get_refusal_message (t : RefusalType) (customContext : Option String) : String :=
  match customContext with
  | some c => if c ≠ "" then refusalMessage t ++ " " ++ c else refusalMessage t
  | none => refusalMessage t

/-- The dictionary returned by the `generate_*_refusal` helpers
(`refusal_type` is the enum's `.value`; the `query` echo of
`generate_no_relevant_content_refusal` is never read downstream and is
omitted). -/
structure RefusalInfo where
  refusal_type : String
  message : String
  should_refuse : Bool

/-- `RefusalHandler.generate_context_insufficient_refusal`. -/
def generate_context_insufficient_refusal (contextLength minRequiredLength : Nat) :
    RefusalInfo :=
  let t :=
    if contextLength = 0 then RefusalType.NO_CONTEXT_PROVIDED
    else if contextLength < minRequiredLength then RefusalType.CONTEXT_TOO_BRIEF
    else RefusalType.INSUFFICIENT_CONTEXT
  ⟨refusalValue t, get_refusal_message t none, true⟩

/-- `RefusalHandler.generate_no_relevant_content_refusal`. -/
def generate_no_relevant_content_refusal : RefusalInfo :=
  ⟨refusalValue RefusalType.NO_RELEVANT_CONTENT,
   get_refusal_message RefusalType.NO_RELEVANT_CONTENT none, true⟩

/-- The result dictionary of `RefusalHandler.should_refuse_answer`. -/
structure RefusalCheck where
  should_refuse : Bool
  refusal_type : Option String
  message : Option String
  reason : Option String
deriving DecidableEq

/-- `RefusalHandler.should_refuse_answer`, with its three ordered checks:
empty context, context too brief, and no word overlap between the
lowercased whitespace-split word sets of query and context.  The
`generate_context_insufficient_refusal(0)` call in the first check uses
the Python default `min_required_length=50`. -/
def should_refuse_answer (context query : String) (minContextLength : Nat) :
    RefusalCheck :=
  if context = "" ∨ (pyStrip context).length = 0 then
    let refusal := generate_context_insufficient_refusal 0 50
    ⟨true, some refusal.refusal_type, some refusal.message, some "no_context"⟩
  else
    let contextLength := (pyStrip context).length
    if contextLength < minContextLength then
      let refusal := generate_context_insufficient_refusal contextLength minContextLength
      ⟨true, some refusal.refusal_type, some refusal.message, some "context_too_brief"⟩
    else
      let queryWords := pyWordSet query
      let contextWords := pyWordSet context
      let commonWords := queryWords ∩ contextWords
      if commonWords.card = 0 ∧ 0 < queryWords.card then
        let refusal := generate_no_relevant_content_refusal
        ⟨true, some refusal.refusal_type, some refusal.message, some "no_relevance"⟩
      else
        ⟨false, none, none, none⟩

/-- `HallucinationPrevention.hallucination_patterns`.  Every pattern is a
literal string (no regex metacharacters), so `re.search` is substring
containment. -/
def hallucinationPatterns : List String :=
  ["according to my training data", "i know that", "from general knowledge",
   "i understand that", "most likely", "probably", "perhaps", "maybe",
   "could be", "might be", "i think", "in general", "typically", "usually",
   "often", "as you know", "everyone knows", "common knowledge",
   "external sources", "other places", "elsewhere", "additionally",
   "furthermore", "moreover"]

/-- The pattern pass of `validate_response_for_hallucinations`: the
patterns found in the lowercased response, in list order. -/
def detectedPatterns (responseLower : String) : List String :=
  hallucinationPatterns.filter (fun p => strContainsSub responseLower p)

/-- The sentence-grounding pass of `validate_response_for_hallucinations`
(lines 110-123): run only when both context and response are non-empty
(`if context and response:`); split the response on `'.'`; flag every
sentence with more than 5 distinct lowercased words and zero word-set
overlap with the context, producing the
`Potential hallucination: '...'` issue string (sentence stripped and
truncated to 100 characters). -/
def sentenceIssues (response context : String) : List String :=
  if context ≠ "" ∧ response ≠ "" then
    (splitKeepStr response '.').filterMap (fun s =>
      let sentenceWords := pyWordSet s
      if 5 < sentenceWords.card then
        if (sentenceWords ∩ pyWordSet context).card = 0 then
          some ("Potential hallucination: '" ++
            String.mk ((trimChars s.data).take 100) ++ "...'")
        else none
      else none)
  else []

/-- The validation dictionary of `validate_response_for_hallucinations`. -/
structure ValidationResult where
  is_valid : Bool
  hallucination_detected : Bool
  issues : List String
  confidence_score : ℚ
deriving DecidableEq

/-- `HallucinationPrevention.validate_response_for_hallucinations`:
issues are the detected patterns followed by the flagged sentences;
`is_valid` stays `True` (and `hallucination_detected` stays `False`)
exactly when no issue was recorded; the confidence is
`max(0.0, 1.0 - issue_count * 0.1)`, with Python floats modelled as
rationals. -/
def validate_response_for_hallucinations (response context : String) :
    ValidationResult :=
  let detected := detectedPatterns (pyLowerStr response)
  let issues := detected ++ sentenceIssues response context
  { is_valid := issues.isEmpty,
    hallucination_detected := !issues.isEmpty,
    issues := issues,
    confidence_score := max 0 (1 - (issues.length : ℚ) * (1 / 10)) }

/-- One iteration of the refinement loop of
`HallucinationPrevention.refine_response`: split on `'.'`, drop the
sentences whose lowercase form contains the pattern, strip the
survivors, and rejoin with `'. '`. -/
def removeSentencesMatching (response pattern : String) : String :=
  let sentences := splitKeepStr response '.'
  let filtered :=
    (sentences.filter (fun s => !strContainsSub (pyLowerStr s) pattern)).map pyStrip
  String.intercalate ". " filtered

/-- `HallucinationPrevention._response_is_contextually_valid`: false on an
empty context or response; false on zero word-set overlap; otherwise true
exactly when `len(common) / len(response_words) >= 0.3`. -/
def responseIsContextuallyValid (response context : String) : Bool :=
  if context = "" ∨ response = "" then false
  else
    let responseWords := pyWordSet response
    let contextWords := pyWordSet context
    let commonWords := responseWords ∩ contextWords
    if commonWords.card = 0 then false
    else decide ((3 : ℚ) / 10 ≤ (commonWords.card : ℚ) / (responseWords.card : ℚ))

/-- `HallucinationPrevention.refine_response`: strip out pattern-matching
sentences for every pattern in order, then, if the result is not
contextually grounded, return the catalog's `INSUFFICIENT_CONTEXT`
refusal message in place of the refined text. -/
def refine_response (response context : String) : String :=
  let refined := hallucinationPatterns.foldl removeSentencesMatching response
  if !responseIsContextuallyValid refined context then
    get_refusal_message RefusalType.INSUFFICIENT_CONTEXT none
  else refined

/-- The chunk loop never spends more than the remaining budget: starting
from token count `tc` and a non-negative remaining budget `rem`, the final
token count is at most `tc + rem`, because an excerpt is only added when
its token count fits the remaining budget, which is charged accordingly. -/
theorem processChunks_budget (query : String) (chunks : List Chunk) :
    ∀ (ctx : String) (srcs : List String) (tc : Nat) (rem : Int), 0 ≤ rem →
      ((processChunks query ctx srcs tc rem chunks).2.2 : Int) ≤ (tc : Int) + rem := by
  induction chunks with
  | nil =>
    intro ctx srcs tc rem h
    simp only [processChunks]
    omega
  | cons c rest ih =>
    intro ctx srcs tc rem h
    simp only [processChunks]
    by_cases hb : rem ≤ 0
    · rw [if_pos hb]
      dsimp only
      omega
    · rw [if_neg hb]
      by_cases hskip : pyStrip (findRelevantSentences c.content query 3) = ""
      · rw [if_pos hskip]
        exact ih _ _ _ _ h
      · rw [if_neg hskip]
        by_cases hfit :
            ((calculateTokenCount (findRelevantSentences c.content query 3)) : Int) ≤ rem
        · rw [if_pos hfit]
          refine le_trans (ih _ _ _ _ (by omega)) ?_
          push_cast
          omega
        · rw [if_neg hfit]
          exact ih _ _ _ _ h

/-- C1 (counterexample): the claim "`retrieve_minimum_context` never
returns `token_count > max_tokens`, including when a selected excerpt's
word count exceeds `max_tokens`" fails: a three-word selected excerpt
with `max_tokens = 2` is returned verbatim with `token_count = 3`,
because neither the sufficiency early return nor the corpus-search branch
applies when the excerpt already overshoots the budget. -/
theorem C1_counterexample :
    2 < (retrieve_minimum_context [] "q" (some "a b c") 2 1).1.token_count := by
  decide

/-- C1 (amended): for every retrieval request with a non-negative
`max_tokens` whose selected excerpt, when supplied, has word count at
most `max_tokens`, the assembled context's `token_count` is at most
`max_tokens`; an oversized selected excerpt, by contrast, is returned
verbatim with `token_count` above the budget (see the counterexample). -/
theorem C1_token_budget (searchResults : List Chunk) (query : String)
    (selectedText : Option String) (maxTokens minTokens : Int)
    (hmax : 0 ≤ maxTokens)
    (hsel : ∀ s, selectedText = some s → (calculateTokenCount s : Int) ≤ maxTokens) :
    ((retrieve_minimum_context searchResults query selectedText
        maxTokens minTokens).1.token_count : Int) ≤ maxTokens := by
  rcases selectedText with _ | s
  · simp only [retrieve_minimum_context, Option.getD_none, if_pos rfl]
    by_cases hpos : (0 : Int) < maxTokens
    · rw [if_pos hpos]
      exact le_trans (processChunks_budget query searchResults "" [] 0 maxTokens hmax)
        (by omega)
    · rw [if_neg hpos]
      simpa using hmax
  · have hs := hsel s rfl
    simp only [retrieve_minimum_context, Option.getD_some]
    by_cases hempty : s = ""
    · rw [if_pos hempty]
      by_cases hpos : (0 : Int) < maxTokens
      · rw [if_pos hpos]
        exact le_trans (processChunks_budget query searchResults "" [] 0 maxTokens hmax)
          (by omega)
      · rw [if_neg hpos]
        simpa using hmax
    · rw [if_neg hempty]
      by_cases h1 : (calculateTokenCount s : Int) ≤ maxTokens ∧
          decide (minTokens ≤ (calculateTokenCount s : Int)) = true
      · rw [if_pos h1]
        exact h1.1
      · rw [if_neg h1]
        by_cases h2 : (calculateTokenCount s : Int) < maxTokens
        · rw [if_pos h2]
          exact le_trans
            (processChunks_budget query searchResults s ["User Selected Text"]
              (calculateTokenCount s) (maxTokens - (calculateTokenCount s : Int))
              (by omega))
            (by omega)
        · rw [if_neg h2]
          exact hs

/-- C1 (witness): the amended budget theorem at a concrete request. -/
theorem C1_token_budget_witness :
    ((retrieve_minimum_context [] "What is ROS 2?" (some "ROS 2 rocks")
        50 2).1.token_count : Int) ≤ 50 :=
  C1_token_budget [] "What is ROS 2?" (some "ROS 2 rocks") 50 2 (by decide)
    (fun s hs => by
      injection hs with h
      subst h
      decide)

/-- C7: a non-empty selected excerpt whose word count lies between
`min_tokens` and `max_tokens` (inclusive) is returned verbatim as the
context, with the single `User Selected Text` source label,
`is_sufficient = true`, and no corpus search issued (the result is the
same for every possible search answer, and the query flag is `false`). -/
theorem C7_excerpt_roundtrip (searchResults : List Chunk) (query s : String)
    (maxTokens minTokens : Int) (hne : s ≠ "")
    (hmin : minTokens ≤ (calculateTokenCount s : Int))
    (hmax : (calculateTokenCount s : Int) ≤ maxTokens) :
    retrieve_minimum_context searchResults query (some s) maxTokens minTokens
      = ({ context := s, sources := ["User Selected Text"],
           token_count := calculateTokenCount s, selected_text_used := true,
           query := query, is_sufficient := true }, false) := by
  simp only [retrieve_minimum_context, Option.getD_some]
  rw [if_neg hne, if_pos ⟨hmax, decide_eq_true hmin⟩]
  simp [decide_eq_true hmin]

/-- C7 (witness): Scenario E — an eight-word excerpt with
`min_tokens = 5`, `max_tokens = 50` round-trips verbatim, marked
sufficient, without a corpus query. -/
theorem C7_excerpt_roundtrip_witness :
    retrieve_minimum_context [] "What is ROS 2 designed for?"
      (some "ROS 2 is designed for large development efforts.") 50 5
      = ({ context := "ROS 2 is designed for large development efforts.",
           sources := ["User Selected Text"], token_count := 8,
           selected_text_used := true, query := "What is ROS 2 designed for?",
           is_sufficient := true }, false) :=
  (C7_excerpt_roundtrip [] "What is ROS 2 designed for?"
    "ROS 2 is designed for large development efforts." 50 5
    (by decide) (by decide) (by decide)).trans (by decide)

/-- C2: the claim that `_find_relevant_sentences` returns the empty
string when no sentence scores above zero, and that the assembler skips
such chunks, fails on the code: `'. '.join([]) + '.'` yields the
one-character string `"."`, which does not strip to empty, so the chunk
is not skipped — it contributes the text `"."`, one token, and its
source label.  (The `continue`-guard's own comment, "Skip if no relevant
sentences found", can never fire because the function always appends a
period.)  This theorem evaluates the code at the failing input. -/
theorem C2_empty_excerpt_not_skipped :
    findRelevantSentences "Hello world" "zebra" 3 = "." ∧
    (retrieve_minimum_context [⟨"ch1", "s1", "T", "Hello world"⟩]
        "zebra" none 1500 100).1.context = "." ∧
    (retrieve_minimum_context [⟨"ch1", "s1", "T", "Hello world"⟩]
        "zebra" none 1500 100).1.sources = ["ch1/s1 - T"] ∧
    (retrieve_minimum_context [⟨"ch1", "s1", "T", "Hello world"⟩]
        "zebra" none 1500 100).1.token_count = 1 := by
  refine ⟨by decide, by decide, by decide, by decide⟩

/-- C8: `_find_relevant_sentences` is deterministic — as a pure function
of its inputs, two calls on identical inputs are definitionally equal —
and the selected sentence list (take the top `k` scored sentences, keep
the positively scored ones) never holds more than `k` sentences. -/
theorem C8_deterministic_and_capped (text query : String) (k : Nat) :
    findRelevantSentences text query k = findRelevantSentences text query k ∧
    (topSentences text query k).length ≤ k :=
  ⟨rfl, by
    unfold topSentences
    exact le_trans (List.length_filterMap_le _ _) (List.length_take_le _ _)⟩

/-- If the fragment accumulator run produced a fragment, either the
accumulator was non-empty or some character of the input fails the
delimiter predicate. -/
theorem fragAux_ne_nil (p : Char → Bool) :
    ∀ (l : List Char) (acc : List Char), fragAux p acc l ≠ [] →
      acc ≠ [] ∨ ∃ c ∈ l, p c = false := by
  intro l
  induction l with
  | nil =>
    intro acc h
    rw [fragAux] at h
    left
    intro hacc
    rw [if_pos hacc] at h
    exact h rfl
  | cons c cs ih =>
    intro acc h
    by_cases hc : p c
    · rw [fragAux, if_pos hc] at h
      by_cases hacc : acc = []
      · rw [if_pos hacc] at h
        rcases ih [] h with h' | ⟨d, hd, hpd⟩
        · exact absurd rfl h'
        · exact Or.inr ⟨d, List.mem_cons_of_mem _ hd, hpd⟩
      · exact Or.inl hacc
    · exact Or.inr ⟨c, List.mem_cons_self _ _, by simpa using hc⟩

/-- A non-empty fragment list exhibits a non-delimiter character. -/
theorem fragments_ne_nil (p : Char → Bool) (l : List Char)
    (h : fragments p l ≠ []) : ∃ c ∈ l, p c = false := by
  rcases fragAux_ne_nil p l [] h with h' | h'
  · exact absurd rfl h'
  · exact h'

/-- Case folding fixes every whitespace character. -/
theorem isPyWs_toLower (c : Char) (h : isPyWs c = true) : Char.toLower c = c := by
  simp only [isPyWs, Bool.or_eq_true, decide_eq_true_eq] at h
  rcases h with ((((h | h) | h) | h) | h) | h <;> subst h <;> decide

/-- A list holding a non-whitespace character does not strip to empty. -/
theorem trimChars_ne_nil (l : List Char) (h : ∃ c ∈ l, isPyWs c = false) :
    trimChars l ≠ [] := by
  intro hnil
  rcases h with ⟨c, hc, hws⟩
  unfold trimChars at hnil
  rw [List.reverse_eq_nil_iff, List.dropWhile_eq_nil_iff] at hnil
  have h3 : ∀ x ∈ l.dropWhile isPyWs, isPyWs x := fun x hx =>
    hnil x (List.mem_reverse.mpr hx)
  have h4 : ∀ x ∈ l, isPyWs x := by
    intro x hx
    rcases List.mem_append.mp
        ((List.takeWhile_append_dropWhile (p := isPyWs) (l := l)) ▸ hx) with h | h
    · exact List.mem_takeWhile_imp h
    · exact h3 x h
  rw [h4 c hc] at hws
  exact absurd hws (by decide)

/-- A string whose lowercased word set is non-empty is itself non-empty
and does not strip to the empty string (case folding cannot create a
non-whitespace character from whitespace). -/
theorem pyWordSet_nonempty_strip (s : String) (h : (pyWordSet s).Nonempty) :
    s ≠ "" ∧ (pyStrip s).length ≠ 0 := by
  have hfrag : fragments isPyWs (pyLowerStr s).data ≠ [] := by
    intro hnil
    rcases h with ⟨w, hw⟩
    rw [pyWordSet, List.mem_toFinset, pyWords, hnil] at hw
    simp at hw
  have horig : ∃ c ∈ s.data, isPyWs c = false := by
    rcases fragments_ne_nil _ _ hfrag with ⟨c, hc, hws⟩
    rcases List.mem_map.mp hc with ⟨d, hd, rfl⟩
    refine ⟨d, hd, ?_⟩
    by_contra hws'
    have hd' : isPyWs d = true := by
      cases hd2 : isPyWs d
      · exact absurd hd2 hws'
      · rfl
    rw [isPyWs_toLower d hd', hd'] at hws
    exact absurd hws (by decide)
  constructor
  · intro hs
    subst hs
    rcases horig with ⟨c, hc, _⟩
    simp at hc
  · intro hlen
    exact trimChars_ne_nil s.data horig (List.length_eq_zero.mp hlen)

/-- C4: for every non-empty context whose stripped length reaches
`min_context_length` and which shares at least one lowercased
whitespace-split word with the query, `should_refuse_answer` does not
refuse. -/
theorem C4_no_refusal (context query : String) (minContextLength : Nat)
    (hlen : minContextLength ≤ (pyStrip context).length)
    (hcommon : (pyWordSet query ∩ pyWordSet context).card ≠ 0) :
    (should_refuse_answer context query minContextLength).should_refuse = false := by
  have hctx : (pyWordSet context).Nonempty := by
    rcases Finset.card_pos.mp (Nat.pos_of_ne_zero hcommon) with ⟨w, hw⟩
    exact ⟨w, (Finset.mem_inter.mp hw).2⟩
  obtain ⟨hne, hstrip⟩ := pyWordSet_nonempty_strip context hctx
  unfold should_refuse_answer
  rw [if_neg (by push_neg; exact ⟨hne, hstrip⟩)]
  rw [if_neg (by omega)]
  rw [if_neg (fun hand => hcommon hand.1)]

/-- C4 (witness): Scenario A — a relevant 65-character context sharing
words with the query is not refused. -/
theorem C4_no_refusal_witness :
    (should_refuse_answer
      "ROS 2 is a flexible framework for developing robot applications."
      "What is ROS 2?" 50).should_refuse = false :=
  C4_no_refusal
    "ROS 2 is a flexible framework for developing robot applications."
    "What is ROS 2?" 50 (by decide) (by decide)

/-- C5: a context that strips to a positive length below
`min_context_length` is always refused as too brief — the
`context_too_brief` reason and refusal type, with the catalog's
`CONTEXT_TOO_BRIEF` message — and never as `no_relevance`, whatever the
query (the ordered checks fire first-match-wins). -/
theorem C5_too_brief_first (context query : String) (minContextLength : Nat)
    (hpos : 0 < (pyStrip context).length)
    (hlt : (pyStrip context).length < minContextLength) :
    should_refuse_answer context query minContextLength
      = ⟨true, some "context_too_brief",
         some (refusalMessage RefusalType.CONTEXT_TOO_BRIEF),
         some "context_too_brief"⟩ ∧
    (should_refuse_answer context query minContextLength).reason
      ≠ some "no_relevance" := by
  have hne : context ≠ "" := by
    intro h
    subst h
    exact absurd hpos (by decide)
  have heq : should_refuse_answer context query minContextLength
      = ⟨true, some "context_too_brief",
         some (refusalMessage RefusalType.CONTEXT_TOO_BRIEF),
         some "context_too_brief"⟩ := by
    unfold should_refuse_answer
    rw [if_neg (by push_neg; exact ⟨hne, by omega⟩), if_pos hlt]
    unfold generate_context_insufficient_refusal
    rw [if_neg (by omega), if_pos hlt]
    rfl
  exact ⟨heq, by rw [heq]; decide⟩

/-- C5 (witness): Scenario C — a four-character context with
`min_context_length = 50` is refused as too brief, not as irrelevant,
even though it shares no word with the query. -/
theorem C5_too_brief_first_witness :
    should_refuse_answer "ROS." "How do I install ROS 2?" 50
      = ⟨true, some "context_too_brief",
         some (refusalMessage RefusalType.CONTEXT_TOO_BRIEF),
         some "context_too_brief"⟩ ∧
    (should_refuse_answer "ROS." "How do I install ROS 2?" 50).reason
      ≠ some "no_relevance" :=
  C5_too_brief_first "ROS." "How do I install ROS 2?" 50 (by decide) (by decide)

/-- C6: an empty or whitespace-only context is always refused with the
`no_context` reason, the `no_context_provided` refusal type and the
catalog's `NO_CONTEXT_PROVIDED` message, for every query (the empty query
included); the embedding is a total function, so no exception can be
raised. -/
theorem C6_no_context (context query : String) (minContextLength : Nat)
    (h : pyStrip context = "") :
    should_refuse_answer context query minContextLength
      = ⟨true, some "no_context_provided",
         some (refusalMessage RefusalType.NO_CONTEXT_PROVIDED),
         some "no_context"⟩ := by
  unfold should_refuse_answer
  rw [if_pos (Or.inr (by rw [h]; rfl))]
  rfl

/-- C6 (witness): Scenario B extended to the malformed-input case — a
whitespace-only context with the empty query is refused as
`no_context`. -/
theorem C6_no_context_witness :
    should_refuse_answer "   " "" 50
      = ⟨true, some "no_context_provided",
         some (refusalMessage RefusalType.NO_CONTEXT_PROVIDED),
         some "no_context"⟩ :=
  C6_no_context "   " "" 50 (by decide)

set_option maxRecDepth 8000 in
/-- C3 (counterexample): the claim that a refinement failing the overlap
check is replaced by the canonical `HALLUCINATION_DETECTED` refusal
message fails on the code: `refine_response` substitutes the
`INSUFFICIENT_CONTEXT` catalog message, a different canonical string.
Here the refinement of `"Probably yes"` strips the only sentence (the
pattern `"probably"` matches), leaving the empty — hence ungrounded —
text, and the `INSUFFICIENT_CONTEXT` message is returned. -/
theorem C3_counterexample :
    refine_response "Probably yes" "ROS 2 is a framework"
        = refusalMessage RefusalType.INSUFFICIENT_CONTEXT ∧
      refusalMessage RefusalType.INSUFFICIENT_CONTEXT
        ≠ refusalMessage RefusalType.HALLUCINATION_PREVENTION := by
  exact ⟨by decide, by decide⟩

/-- C3 (amended): whenever the refined answer's word-set overlap ratio
with the context is below `0.3`, or the refined text (or the context) is
empty, `refine_response` discards the refinement and returns the
canonical `INSUFFICIENT_CONTEXT` refusal message — never a
partially-cleaned answer.  (The `HALLUCINATION_DETECTED` catalog message
is substituted only later, by the pipeline, when the refined text still
fails validation.) -/
theorem C3_refusal_on_low_overlap (response context : String)
    (h : ((pyWordSet (hallucinationPatterns.foldl removeSentencesMatching response)
            ∩ pyWordSet context).card : ℚ)
          / ((pyWordSet (hallucinationPatterns.foldl
              removeSentencesMatching response)).card : ℚ) < 3 / 10
        ∨ hallucinationPatterns.foldl removeSentencesMatching response = ""
        ∨ context = "") :
    refine_response response context
      = get_refusal_message RefusalType.INSUFFICIENT_CONTEXT none := by
  unfold refine_response
  set refined := hallucinationPatterns.foldl removeSentencesMatching response with hr
  have hvalid : responseIsContextuallyValid refined context = false := by
    unfold responseIsContextuallyValid
    by_cases h1 : context = "" ∨ refined = ""
    · rw [if_pos h1]
    · rw [if_neg h1]
      rcases h with h | h | h
      · by_cases h2 : (pyWordSet refined ∩ pyWordSet context).card = 0
        · rw [if_pos h2]
        · rw [if_neg h2]
          rw [decide_eq_false_iff_not]
          exact not_le.mpr h
      · exact absurd (Or.inr h) h1
      · exact absurd (Or.inl h) h1
  simp [hvalid]

/-- C3 (witness): the amended theorem at a concrete input — an answer
whose refinement cannot be grounded in the empty context is replaced by
the `INSUFFICIENT_CONTEXT` message. -/
theorem C3_refusal_on_low_overlap_witness :
    refine_response "cat" ""
      = get_refusal_message RefusalType.INSUFFICIENT_CONTEXT none :=
  C3_refusal_on_low_overlap "cat" "" (Or.inr (Or.inr rfl))

/-- C9: for every answer and context, the validation report's confidence
equals `max(0, 1 - 0.1 * number_of_flagged_items)` and the answer counts
as grounded (`is_valid`) exactly when neither the pattern pass nor the
sentence-grounding pass flagged anything; moreover, whatever the context,
the Scenario D answer containing "according to my training data" is
reported not grounded with that pattern among the flagged items. -/
theorem C9_confidence_formula (response context : String) :
    (validate_response_for_hallucinations response context).confidence_score
        = max 0 (1 - (0.1 : ℚ) *
            ((validate_response_for_hallucinations response context).issues.length : ℚ)) ∧
    ((validate_response_for_hallucinations response context).is_valid = true ↔
      detectedPatterns (pyLowerStr response) = [] ∧
        sentenceIssues response context = []) ∧
    (validate_response_for_hallucinations
        "According to my training data, ROS 2 was made in 2010." context).is_valid
      = false ∧
    "according to my training data" ∈
      (validate_response_for_hallucinations
        "According to my training data, ROS 2 was made in 2010." context).issues := by
  have hd : detectedPatterns
      (pyLowerStr "According to my training data, ROS 2 was made in 2010.")
      = ["according to my training data"] := by decide
  refine ⟨?_, ?_, ?_, ?_⟩
  · simp only [validate_response_for_hallucinations]
    ring_nf
  · simp [validate_response_for_hallucinations, List.isEmpty_iff,
      List.append_eq_nil]
  · simp [validate_response_for_hallucinations, hd]
  · simp only [validate_response_for_hallucinations, hd]
    exact List.mem_append_left _ (List.mem_singleton.mpr rfl)

/-- C10: when the context is the empty string the sentence-grounding pass
is skipped outright (`if context and response:`), so an answer matching
none of the hallucination patterns validates perfectly:
`hallucination_detected = false`, `is_valid = true`, no issues, and
`confidence_score = 1.0` — even though nothing supports its sentences. -/
theorem C10_empty_context_validates (response : String)
    (h : detectedPatterns (pyLowerStr response) = []) :
    validate_response_for_hallucinations response "" = ⟨true, false, [], 1⟩ := by
  simp [validate_response_for_hallucinations, sentenceIssues, h]

/-- C10 (witness): a pattern-free answer against the empty context is
declared fully valid with confidence 1. -/
theorem C10_empty_context_validates_witness :
    validate_response_for_hallucinations "ROS 2 is a robotics framework" ""
      = ⟨true, false, [], 1⟩ :=
  C10_empty_context_validates "ROS 2 is a robotics framework" (by decide)
